import Mathlib

/-!
Verification of the device state reconciliation and change-propagation
engine of the homebridge-august Homebridge plugin (package version 3.0.1).

The definitions below are a shallow embedding of the current sources:
the `LockMechanism` accessory class (src/devices/lock.ts) and its base
class `deviceBase` (src/devices/device.ts).  JavaScript numbers that hold
HomeKit characteristic values are embedded as `Int`; the vendor battery
fraction is embedded as `ℚ`; `undefined`-able class fields are embedded
as `Option`.  A JavaScript `TypeError` thrown while reading a property of
`undefined` is embedded as `Except.error`, caught by the caller exactly
where the source has a `try`/`catch`.
-/

namespace HomebridgeAugust

/-! ## HomeKit characteristic constants (hap.Characteristic) -/

def LockCurrentStateUNSECURED : Int := 0
def LockCurrentStateSECURED : Int := 1
def LockCurrentStateJAMMED : Int := 2
def LockCurrentStateUNKNOWN : Int := 3
def LockTargetStateUNSECURED : Int := 0
def LockTargetStateSECURED : Int := 1
def CONTACT_DETECTED : Int := 0
def CONTACT_NOT_DETECTED : Int := 1
def BATTERY_LEVEL_NORMAL : Int := 0
def BATTERY_LEVEL_LOW : Int := 1

/-! ## Vendor payload shapes (settings.ts) -/

/-- The raw boolean state block of a vendor payload (settings.ts `state` /
`stateEvent`; the optional `open`/`closed` of `stateEvent` are embedded as
`Bool` since `undefined` is falsy in every use site). -/
structure RawState where
  locked : Bool
  unlocked : Bool
  locking : Bool
  unlocking : Bool
  open_ : Bool
  closed : Bool
deriving DecidableEq, Repr

/-- settings.ts `lockStatus` (the fields the engine reads). -/
structure LockStatusT where
  doorState : String
  state : RawState
deriving DecidableEq, Repr

/-- settings.ts `lockEvent` (the fields the engine reads). -/
structure LockEventT where
  doorState : String
  state : RawState
deriving DecidableEq, Repr

/-- settings.ts `lockDetails` (the fields the engine reads). -/
structure LockDetailsT where
  battery : ℚ
  currentFirmwareVersion : String
  LockStatus : LockStatusT
deriving DecidableEq, Repr

/-- The mutable per-accessory state of the `LockMechanism` class that the
reconciliation engine reads and writes.  The `LockMechanism` service object
exists iff `hide_lock` is unset and the `ContactSensor` service object
exists iff `hide_contactsensor` is unset (lock.ts constructor), so service
presence is represented by the two hide flags. -/
structure Accessory where
  hideLock : Bool
  hideContact : Bool
  LockCurrentState : Int
  LockTargetState : Int
  ContactSensorState : Int
  BatteryLevel : Int
  StatusLowBattery : Int
  contextCurrentFirmwareVersion : Option String
  lockStatus : Option LockStatusT
  lockEvent : Option LockEventT
  lockDetails : Option LockDetailsT
deriving DecidableEq, Repr

/-- lock.ts `const retryCount = 1` (never incremented; see parseStatus). -/
def retryCount : Int := 1

/-- JavaScript `Number((x).toFixed())`: round to the nearest integer, ties
toward positive infinity (ECMA-262 Number.prototype.toFixed picks the
larger candidate on a tie), which is Mathlib's `round`. -/
def jsToFixed0 (x : ℚ) : Int := round x

/-- JavaScript `String.prototype.includes` (substring test). -/
def strIncludes (s pat : String) : Bool := decide (pat.data <:+: s.data)

/-! ## parseStatus (lock.ts) — merge of a poll snapshot

Embeds, line for line, the state effect of

```
async parseStatus(): Promise<void> {
  const retryCount = 1;
  if (this.lockStatus) {
    this.platform.augustConfig.addSimpleProps(this.lockStatus);
    if (this.LockMechanism && (this.lockStatus.state.unlocking || this.lockStatus.state.locking)) { warnLog }
    if (!this.device.lock?.hide_lock && this.LockMechanism?.Service
        && (this.lockEvent.state.locked !== this.lockEvent.state.unlocked)) {
      this.LockMechanism.LockCurrentState = this.lockStatus.state.locked ? SECURED
        : this.lockStatus.state.unlocked ? UNSECURED
          : retryCount > 1 ? JAMMED : UNKNOWN;
    }
    if (!this.device.lock?.hide_contactsensor && this.ContactSensor?.Service) {
      this.ContactSensor.ContactSensorState = open ? CONTACT_NOT_DETECTED
        : closed ? CONTACT_DETECTED
          : doorState.includes('open') ? CONTACT_NOT_DETECTED
            : doorState.includes('closed') ? CONTACT_DETECTED
              : this.ContactSensor.ContactSensorState;
    }
  }
  if (this.lockDetails) {
    this.Battery.BatteryLevel = Number((this.lockDetails.battery * 100).toFixed());
    this.Battery.StatusLowBattery = this.Battery.BatteryLevel < 15 ? LOW : NORMAL;
    if (this.accessory.context.currentFirmwareVersion !== this.lockDetails.currentFirmwareVersion) {
      ...; this.accessory.context.currentFirmwareVersion = this.lockDetails.currentFirmwareVersion;
    }
  }
}
```

Note the lock-phase guard dereferences `this.lockEvent`, which is
`undefined` until the first push event arrives; that read throws a
`TypeError` (embedded as `Except.error ()`), caught by `refreshStatus`.
`addSimpleProps` is the external vendor helper that populates the boolean
`state` flags from the status string; in the embedding the flags are part
of the input payload, so it is the identity. -/
def phaseFromFlags (s : RawState) : Int :=
  if s.locked then LockCurrentStateSECURED
  else if s.unlocked then LockCurrentStateUNSECURED
  else if retryCount > 1 then LockCurrentStateJAMMED
  else LockCurrentStateUNKNOWN

def parseStatusLock (a : Accessory) (ls : LockStatusT) : Except Unit Accessory :=
  if ¬ a.hideLock then
    match a.lockEvent with
    | none => Except.error ()
    | some ev =>
      if ev.state.locked != ev.state.unlocked then
        Except.ok { a with LockCurrentState := phaseFromFlags ls.state }
      else Except.ok a
  else Except.ok a

def contactFromStatus (ls : LockStatusT) (prev : Int) : Int :=
  if ls.state.open_ then CONTACT_NOT_DETECTED
  else if ls.state.closed then CONTACT_DETECTED
  else if strIncludes ls.doorState "open" then CONTACT_NOT_DETECTED
  else if strIncludes ls.doorState "closed" then CONTACT_DETECTED
  else prev

def parseStatusContact (a : Accessory) (ls : LockStatusT) : Accessory :=
  if ¬ a.hideContact then
    { a with ContactSensorState := contactFromStatus ls a.ContactSensorState }
  else a

def parseStatusDetails (a : Accessory) : Accessory :=
  match a.lockDetails with
  | none => a
  | some d =>
    if a.contextCurrentFirmwareVersion ≠ some d.currentFirmwareVersion then
      { a with BatteryLevel := jsToFixed0 (d.battery * 100),
               StatusLowBattery :=
                 if jsToFixed0 (d.battery * 100) < 15 then BATTERY_LEVEL_LOW
                 else BATTERY_LEVEL_NORMAL,
               contextCurrentFirmwareVersion := some d.currentFirmwareVersion }
    else
      { a with BatteryLevel := jsToFixed0 (d.battery * 100),
               StatusLowBattery :=
                 if jsToFixed0 (d.battery * 100) < 15 then BATTERY_LEVEL_LOW
                 else BATTERY_LEVEL_NORMAL }

def parseStatus (a : Accessory) : Except Unit Accessory :=
  match a.lockStatus with
  | none => Except.ok (parseStatusDetails a)
  | some ls =>
    match parseStatusLock a ls with
    | Except.error e => Except.error e
    | Except.ok aL => Except.ok (parseStatusDetails (parseStatusContact aL ls))

/-- The effect of one poll-sourced snapshot merge as the caller sees it:
`refreshStatus` wraps `parseStatus` in `try`/`catch`, so a thrown
`TypeError` leaves the accessory state as it was. -/
def applySnapshotPoll (a : Accessory) : Accessory :=
  match parseStatus a with
  | Except.ok b => b
  | Except.error _ => a

/-! ## parseEventStatus (lock.ts) — merge of a push-event snapshot -/

/-- Embeds the state effect of `parseEventStatus`:

```
async parseEventStatus(): Promise<void> {
  const retryCount = 1;
  if (this.lockEvent) {
    this.platform.augustConfig.addSimpleProps(this.lockEvent);
    if (this.LockMechanism && (this.lockEvent.state.unlocking || this.lockEvent.state.locking)) {
      debugLog; return;
    }
    if (!this.device.lock?.hide_lock && this.LockMechanism?.Service
        && (this.lockEvent.state.locked !== this.lockEvent.state.unlocked)) {
      this.LockMechanism.LockCurrentState = locked ? SECURED : unlocked ? UNSECURED
        : retryCount > 1 ? JAMMED : UNKNOWN;
    }
    if (!this.device.lock?.hide_contactsensor && this.ContactSensor?.Service) {
      this.ContactSensor.ContactSensorState = open ? CONTACT_NOT_DETECTED
        : closed ? CONTACT_DETECTED
          : doorState === 'open' ? CONTACT_NOT_DETECTED
            : doorState === 'closed' ? CONTACT_DETECTED
              : this.ContactSensor.ContactSensorState;
    }
  }
}
```

The early `return` on the transient `locking`/`unlocking` flags fires only
when the `LockMechanism` service object exists, i.e. when `hide_lock` is
unset. -/
def parseEventStatusLock (a : Accessory) (ev : LockEventT) : Accessory :=
  if ¬ a.hideLock ∧ ev.state.locked != ev.state.unlocked then
    { a with LockCurrentState := phaseFromFlags ev.state }
  else a

def contactFromEvent (ev : LockEventT) (prev : Int) : Int :=
  if ev.state.open_ then CONTACT_NOT_DETECTED
  else if ev.state.closed then CONTACT_DETECTED
  else if ev.doorState == "open" then CONTACT_NOT_DETECTED
  else if ev.doorState == "closed" then CONTACT_DETECTED
  else prev

def parseEventStatusContact (a : Accessory) (ev : LockEventT) : Accessory :=
  if ¬ a.hideContact then
    { a with ContactSensorState := contactFromEvent ev a.ContactSensorState }
  else a

def parseEventStatus (a : Accessory) : Accessory :=
  match a.lockEvent with
  | none => a
  | some ev =>
    if ¬ a.hideLock ∧ (ev.state.unlocking ∨ ev.state.locking) then a
    else parseEventStatusContact (parseEventStatusLock a ev) ev

/-! ## Logging and error classification (device.ts) -/

/-- The logging channels of `deviceBase` that the engine writes to.
`debugLevel` stands for `debugLog` (emitted on the info/debug channel only
when debug logging is configured), `debugErrorLevel` for `debugErrorLog`,
`errorLevel` for `errorLog` (the host's error channel), `successLevel` for
`successLog`, `warnLevel` for `warnLog`. -/
inductive LogLevel where
  | debugLevel
  | debugErrorLevel
  | errorLevel
  | successLevel
  | warnLevel
deriving DecidableEq, Repr

/-- The `logMap` lookup of `deviceBase.statusCode` (device.ts): the first
three characters of the error message select a classification. -/
def logMapLookup (statusCodeString : String) : Option String :=
  let key := statusCodeString.take 3
  if key = "100" then some ("Command successfully sent, statusCode: " ++ statusCodeString)
  else if key = "200" then some ("Request successful, statusCode: " ++ statusCodeString)
  else if key = "400" then some ("Bad Request, statusCode: " ++ statusCodeString)
  else if key = "429" then
    some ("Too Many Requests, exceeded the number of requests allowed for a given time window, statusCode: "
      ++ statusCodeString)
  else none

/-- `deviceBase.statusCode(device, action, error)` (device.ts): looks the
first three characters of `error.message` up in `logMap`, logs the found
message with `debugLog`, and only for an unknown code additionally calls
`debugErrorLog`.  No classified code is logged through `errorLog`. -/
def statusCode (action : String) (message : String) : List (LogLevel × String) :=
  match logMapLookup message with
  | some logMessage => [(LogLevel.debugLevel, logMessage)]
  | none =>
      [(LogLevel.debugLevel,
          "Unknown statusCode: " ++ message ++ ", Submit Bugs Here: https://tinyurl.com/AugustYaleBug"),
        (LogLevel.debugErrorLevel, "failed " ++ action ++ ", Error: " ++ message)]

/-! ## refreshStatus (lock.ts) -/

/-- The message of the `TypeError` thrown when `parseStatus` dereferences
the still-undefined `this.lockEvent`. -/
def typeErrorMessage : String := "TypeError: Cannot read properties of undefined (reading 'state')"

/-- Result of one `refreshStatus` invocation: the accessory state as left
behind, the number of outbound vendor fetches performed, and the log
entries emitted by the error path. -/
structure RefreshResult where
  accessory : Accessory
  fetchCount : Nat
  logs : List (LogLevel × String)
deriving DecidableEq, Repr

/-- `LockMechanism.refreshStatus` (lock.ts):

```
if (this.deviceRefreshRate !== 0) {
  try {
    const lockDetails = await this.platform.augustConfig.details(this.device.lockId);
    this.lockDetails = lockDetails;
    this.lockStatus = lockDetails.LockStatus;
    await this.parseStatus();
    await this.updateHomeKitCharacteristics();
  } catch (e) {
    await this.statusCode(this.device, '(refreshStatus) lockDetails', e);
    await this.errorLog(`pushChanges: ${e.message}`);
  }
} else { await this.debugLog(); }
```

The outcome of the network fetch is an input (`Except`): the function
itself always returns — every failure is converted to log entries. -/
def refreshStatus (a : Accessory) (deviceRefreshRate : Int)
    (fetch : Except String LockDetailsT) : RefreshResult :=
  if deviceRefreshRate ≠ 0 then
    match fetch with
    | Except.error msg =>
        ⟨a, 1, statusCode "(refreshStatus) lockDetails" msg
            ++ [(LogLevel.errorLevel, "pushChanges: " ++ msg)]⟩
    | Except.ok lockDetails =>
        let a1 := { a with lockDetails := some lockDetails,
                           lockStatus := some lockDetails.LockStatus }
        match parseStatus a1 with
        | Except.ok a2 => ⟨a2, 1, []⟩
        | Except.error _ =>
            ⟨a1, 1, statusCode "(refreshStatus) lockDetails" typeErrorMessage
                ++ [(LogLevel.errorLevel, "pushChanges: " ++ typeErrorMessage)]⟩
  else ⟨a, 0, []⟩

/-! ## pushChanges and the command debouncer (lock.ts) -/

/-- An outbound vendor command (`augustConfig.lock` / `augustConfig.unlock`). -/
inductive Command where
  | lock
  | unlock
deriving DecidableEq, Repr

/-- Result of one `pushChanges` invocation: the accessory state, the
outbound commands attempted (at most one), and the emitted log entries. -/
structure PushResult where
  accessory : Accessory
  commands : List Command
  logs : List (LogLevel × String)
deriving DecidableEq, Repr

/-- `LockMechanism.pushChanges` (lock.ts):

```
try {
  if (this.LockMechanism) {
    if (this.LockMechanism.LockTargetState !== this.LockMechanism.LockCurrentState) {
      if (this.LockMechanism.LockTargetState === UNSECURED) { await unlock(lockId); }
      else { await lock(lockId); }
      await this.successLog(`Sending request to August API: ${target === 1 ? 'Locked' : 'Unlocked'}`);
    } else {
      await this.debugLog(`No changes, ...`);
      this.LockMechanism.LockTargetState =
        this.LockMechanism.LockCurrentState === SECURED ? SECURED : UNSECURED;
    }
    await this.updateHomeKitCharacteristics();
  } else { await this.errorLog(...) }
} catch (e) { await this.statusCode(this.device, 'pushChanges', e); await this.debugLog(`pushChanges: ${e}`); }
```

`cmdResult` is the outcome of the vendor command; on failure the `catch`
fires and the accessory state is left untouched. -/
def pushChanges (a : Accessory) (cmdResult : Except String Unit) : PushResult :=
  if ¬ a.hideLock then
    if a.LockTargetState ≠ a.LockCurrentState then
      let cmd := if a.LockTargetState = LockTargetStateUNSECURED then Command.unlock else Command.lock
      match cmdResult with
      | Except.ok _ =>
          ⟨a, [cmd], [(LogLevel.successLevel,
            "Sending request to August API: "
              ++ (if a.LockTargetState = 1 then "Locked" else "Unlocked"))]⟩
      | Except.error msg =>
          ⟨a, [cmd], statusCode "pushChanges" msg ++ [(LogLevel.debugLevel, "pushChanges: " ++ msg)]⟩
    else
      ⟨{ a with LockTargetState :=
            if a.LockCurrentState = LockCurrentStateSECURED then LockTargetStateSECURED
            else LockTargetStateUNSECURED },
        [], [(LogLevel.debugLevel, "No changes, LockTargetState equals LockCurrentState")]⟩
  else ⟨a, [], [(LogLevel.errorLevel, "lockTargetState: undefined")]⟩

/-- `LockMechanism.setLockTargetState(value)` (lock.ts): guarded by
`if (this.LockMechanism)` (present iff `hide_lock` unset); records the
intent synchronously and signals `doLockUpdate.next()`. -/
def setLockTargetState (a : Accessory) (value : Int) : Accessory :=
  if ¬ a.hideLock then { a with LockTargetState := value } else a

/-- One debounce window of the command debouncer (lock.ts constructor):
all `setLockTargetState` calls of the burst run synchronously, each
overwriting `LockTargetState`; `debounceTime(devicePushRate * 1000)`
coalesces the `doLockUpdate.next()` signals so that the subscriber body —
a single `pushChanges` — runs once after the window expires.  The
subscription itself is created only when `hide_lock` is unset. -/
def debounceWindow (a : Accessory) (targets : List Int)
    (cmdResult : Except String Unit) : PushResult :=
  let a1 := targets.foldl setLockTargetState a
  if targets.isEmpty ∨ a.hideLock then ⟨a1, [], []⟩
  else pushChanges a1 cmdResult

/-! ## updateCharacteristic and the characteristic bridge (device.ts, lock.ts) -/

/-- `deviceBase.updateCharacteristic(Service, Characteristic, value, name)`
(device.ts):

```
if (CharacteristicValue === undefined) { this.debugLog(...); }
else {
  Service.updateCharacteristic(Characteristic, CharacteristicValue);
  this.accessory.context[CharacteristicName] = CharacteristicValue;
}
```

Returns the number of host characteristic writes performed (0 or 1) and
the persisted context value for this characteristic afterwards.  The
write is unconditional whenever the value is defined: the previous
context value is never compared against. -/
def updateCharacteristic (contextBefore : Option Int) (value : Option Int) :
    Nat × Option Int :=
  match value with
  | none => (0, contextBefore)
  | some v => (1, some v)

/-- `LockMechanism.updateHomeKitCharacteristics` (lock.ts): one
`updateCharacteristic` call per characteristic — LockTargetState and
LockCurrentState when the lock service exists, BatteryLevel and
StatusLowBattery always, ContactSensorState when the contact service
exists.  Every value passed is defined, so the host write count per pass
is fixed by the two hide flags (`contextBefore` does not matter, see
`updateCharacteristic`); here the per-characteristic context is threaded
as the current value itself, the steady-state worst case. -/
def updateHomeKitCharacteristics (a : Accessory) : Nat :=
  (if ¬ a.hideLock then
      (updateCharacteristic (some a.LockTargetState) (some a.LockTargetState)).1
        + (updateCharacteristic (some a.LockCurrentState) (some a.LockCurrentState)).1
    else 0)
  + (updateCharacteristic (some a.BatteryLevel) (some a.BatteryLevel)).1
  + (updateCharacteristic (some a.StatusLowBattery) (some a.StatusLowBattery)).1
  + (if ¬ a.hideContact then
      (updateCharacteristic (some a.ContactSensorState) (some a.ContactSensorState)).1
    else 0)

/-! ## The poll scheduler (lock.ts constructor) -/

/-- rxjs `skipWhile` semantics of

```
interval(this.deviceRefreshRate * 1000)
  .pipe(skipWhile(() => this.lockUpdateInProgress))
  .subscribe(async () => { await this.refreshStatus(); });
```

`guards` lists the value of `lockUpdateInProgress` observed at each
successive interval tick.  `skipWhile` drops ticks only while every tick
seen so far satisfied the predicate: tick `i` is emitted iff some tick
`j ≤ i` observed the guard `false` — after the first `false` the
predicate is no longer consulted and every later tick is emitted. -/
def tickEmitted (guards : List Bool) (i : Nat) : Bool :=
  (guards.take (i + 1)).any (fun g => !g)

/-- Outbound fetches performed by tick `i` of the poll scheduler: zero if
the tick is skipped by `skipWhile`, otherwise the fetches of one
`refreshStatus` run. -/
def pollTickFetches (a : Accessory) (deviceRefreshRate : Int)
    (fetch : Except String LockDetailsT) (guards : List Bool) (i : Nat) : Nat :=
  if tickEmitted guards i then (refreshStatus a deviceRefreshRate fetch).fetchCount else 0

/-! ## Rate settings (device.ts) -/

/-- `deviceBase.getDeviceRateSettings` refreshRate resolution (device.ts):

```
this.deviceRefreshRate = device.refreshRate === 0 ? 0
  : device.refreshRate ?? this.config.options?.refreshRate ?? 30;
```

`none` stands for an unset (`undefined`) option. -/
def getDeviceRefreshRate (deviceRefreshRate : Option Int)
    (platformRefreshRate : Option Int) : Int :=
  match deviceRefreshRate with
  | some r => if r = 0 then 0 else r
  | none => platformRefreshRate.getD 30

/-! ## Concrete fixtures used by the counterexamples and witnesses -/

/-- A stable raw state: every flag false (vendor reported neither locked
nor unlocked, no transient operation, no door flag). -/
def stableAllFalse : RawState :=
  { locked := false, unlocked := false, locking := false, unlocking := false,
    open_ := false, closed := false }

/-- A stable raw state reporting locked. -/
def lockedState : RawState :=
  { locked := true, unlocked := false, locking := false, unlocking := false,
    open_ := false, closed := false }

/-- A transient raw state: `locking` set, neither stable flag set (the
shape `addSimpleProps` produces for a `kAugLockState_Locking` status). -/
def lockingState : RawState :=
  { locked := false, unlocked := false, locking := true, unlocking := false,
    open_ := false, closed := false }

/-- A freshly constructed accessory with both services visible, seeded
with the constructor defaults (Secured/Secured, contact detected, battery
100, normal), no snapshot received yet. -/
def baseAccessory : Accessory :=
  { hideLock := false, hideContact := false,
    LockCurrentState := LockCurrentStateSECURED,
    LockTargetState := LockTargetStateSECURED,
    ContactSensorState := CONTACT_DETECTED,
    BatteryLevel := 100,
    StatusLowBattery := BATTERY_LEVEL_NORMAL,
    contextCurrentFirmwareVersion := some "3.2.10",
    lockStatus := none, lockEvent := none, lockDetails := none }

/-- A stable raw state reporting locked with the door closed. -/
def lockedClosedState : RawState :=
  { locked := true, unlocked := false, locking := false, unlocking := false,
    open_ := false, closed := true }

/-- Vendor lock details carrying battery fraction `b` and a closed,
locked status. -/
def detailsWithBattery (b : ℚ) : LockDetailsT :=
  { battery := b, currentFirmwareVersion := "3.2.10",
    LockStatus := { doorState := "closed", state := lockedClosedState } }

/-- Accessory that has already received one push event (so that
`parseStatus` does not throw on `this.lockEvent`). -/
def accessoryWithEvent : Accessory :=
  { baseAccessory with lockEvent := some { doorState := "closed", state := lockedState } }

/-- C2 fixture: a stable push event whose `locked` and `unlocked` flags
are both false, arriving while the canonical phase is Secured. -/
def bothFalseEventAccessory : Accessory :=
  { baseAccessory with lockEvent := some { doorState := "", state := stableAllFalse } }

/-- C3 fixture: a poll snapshot with the transient `locking` flag set
(stored in `lockStatus`), while the last push event was a stable locked
report, and the canonical phase is Secured. -/
def lockingPollAccessory : Accessory :=
  { baseAccessory with
      lockStatus := some { doorState := "", state := lockingState },
      lockEvent := some { doorState := "", state := lockedState } }

/-- C3 witness fixture: a transient `locking` push event. -/
def lockingEventAccessory : Accessory :=
  { baseAccessory with lockEvent := some { doorState := "", state := lockingState } }

/-- C8/C9 witness fixture: an accessory whose pending target (Secured)
differs from its current phase (Unsecured), so `pushChanges` attempts an
outbound command. -/
def pendingIntentAccessory : Accessory :=
  { baseAccessory with LockCurrentState := LockCurrentStateUNSECURED }

/-! ## Helper lemmas: field preservation and idempotence of the merge -/

theorem update_LockCurrentState_self (a : Accessory) (v : Int)
    (h : a.LockCurrentState = v) : { a with LockCurrentState := v } = a := by
  cases a
  simp_all

theorem update_ContactSensorState_self (a : Accessory) (v : Int)
    (h : a.ContactSensorState = v) : { a with ContactSensorState := v } = a := by
  cases a
  simp_all

theorem update_Battery_self (a : Accessory) (bl sl : Int)
    (h1 : a.BatteryLevel = bl) (h2 : a.StatusLowBattery = sl) :
    { a with BatteryLevel := bl, StatusLowBattery := sl } = a := by
  cases a
  simp_all

theorem contactFromEvent_idem (ev : LockEventT) (p : Int) :
    contactFromEvent ev (contactFromEvent ev p) = contactFromEvent ev p := by
  unfold contactFromEvent
  split_ifs <;> rfl

theorem contactFromStatus_idem (ls : LockStatusT) (p : Int) :
    contactFromStatus ls (contactFromStatus ls p) = contactFromStatus ls p := by
  unfold contactFromStatus
  split_ifs <;> rfl

theorem parseEventStatusLock_fields (a : Accessory) (ev : LockEventT) :
    (parseEventStatusLock a ev).hideLock = a.hideLock ∧
    (parseEventStatusLock a ev).hideContact = a.hideContact ∧
    (parseEventStatusLock a ev).LockTargetState = a.LockTargetState ∧
    (parseEventStatusLock a ev).ContactSensorState = a.ContactSensorState ∧
    (parseEventStatusLock a ev).BatteryLevel = a.BatteryLevel ∧
    (parseEventStatusLock a ev).StatusLowBattery = a.StatusLowBattery ∧
    (parseEventStatusLock a ev).contextCurrentFirmwareVersion = a.contextCurrentFirmwareVersion ∧
    (parseEventStatusLock a ev).lockStatus = a.lockStatus ∧
    (parseEventStatusLock a ev).lockEvent = a.lockEvent ∧
    (parseEventStatusLock a ev).lockDetails = a.lockDetails := by
  unfold parseEventStatusLock
  split <;> simp

theorem parseEventStatusContact_fields (a : Accessory) (ev : LockEventT) :
    (parseEventStatusContact a ev).hideLock = a.hideLock ∧
    (parseEventStatusContact a ev).hideContact = a.hideContact ∧
    (parseEventStatusContact a ev).LockCurrentState = a.LockCurrentState ∧
    (parseEventStatusContact a ev).LockTargetState = a.LockTargetState ∧
    (parseEventStatusContact a ev).BatteryLevel = a.BatteryLevel ∧
    (parseEventStatusContact a ev).StatusLowBattery = a.StatusLowBattery ∧
    (parseEventStatusContact a ev).contextCurrentFirmwareVersion = a.contextCurrentFirmwareVersion ∧
    (parseEventStatusContact a ev).lockStatus = a.lockStatus ∧
    (parseEventStatusContact a ev).lockEvent = a.lockEvent ∧
    (parseEventStatusContact a ev).lockDetails = a.lockDetails := by
  unfold parseEventStatusContact
  split <;> simp

theorem parseEventStatusContact_self (y : Accessory) (ev : LockEventT)
    (h : contactFromEvent ev y.ContactSensorState = y.ContactSensorState) :
    parseEventStatusContact y ev = y := by
  unfold parseEventStatusContact
  split
  · exact update_ContactSensorState_self y _ h.symm
  · rfl

theorem parseEventStatusLock_pos (x : Accessory) (ev : LockEventT)
    (h : x.hideLock = false) (h2 : (ev.state.locked != ev.state.unlocked) = true) :
    parseEventStatusLock x ev = { x with LockCurrentState := phaseFromFlags ev.state } := by
  unfold parseEventStatusLock
  rw [if_pos ⟨by simp [h], h2⟩]

theorem parseEventStatusLock_neg (x : Accessory) (ev : LockEventT)
    (h : ¬ (¬ x.hideLock = true ∧ (ev.state.locked != ev.state.unlocked) = true)) :
    parseEventStatusLock x ev = x := by
  unfold parseEventStatusLock
  rw [if_neg h]

theorem parseEventStatusLock_absorb (a : Accessory) (ev : LockEventT) :
    parseEventStatusLock (parseEventStatusContact (parseEventStatusLock a ev) ev) ev
      = parseEventStatusContact (parseEventStatusLock a ev) ev := by
  by_cases hl : a.hideLock = true
  · have g1 : parseEventStatusLock a ev = a := parseEventStatusLock_neg a ev (by simp [hl])
    rw [g1]
    exact parseEventStatusLock_neg _ ev (by simp [(parseEventStatusContact_fields a ev).1, hl])
  · by_cases hb : (ev.state.locked != ev.state.unlocked) = true
    · have hl0 : a.hideLock = false := by simpa using hl
      rw [parseEventStatusLock_pos a ev hl0 hb]
      have hx1 : (parseEventStatusContact
          { a with LockCurrentState := phaseFromFlags ev.state } ev).hideLock = false := by
        rw [(parseEventStatusContact_fields _ ev).1]
        exact hl0
      have hx2 : (parseEventStatusContact
          { a with LockCurrentState := phaseFromFlags ev.state } ev).LockCurrentState
          = phaseFromFlags ev.state := by
        rw [(parseEventStatusContact_fields _ ev).2.2.1]
      rw [parseEventStatusLock_pos _ ev hx1 hb]
      exact update_LockCurrentState_self _ _ hx2
    · have g1 : parseEventStatusLock a ev = a := parseEventStatusLock_neg a ev (by simp [hb])
      rw [g1]
      exact parseEventStatusLock_neg _ ev (by simp [hb])

theorem parseEventStatus_eq_none (a : Accessory) (h : a.lockEvent = none) :
    parseEventStatus a = a := by
  unfold parseEventStatus
  rw [h]

theorem parseEventStatus_eq_transient (a : Accessory) (ev : LockEventT)
    (h : a.lockEvent = some ev)
    (ht : ¬ a.hideLock = true ∧ (ev.state.unlocking = true ∨ ev.state.locking = true)) :
    parseEventStatus a = a := by
  unfold parseEventStatus
  rw [h]
  exact if_pos ht

theorem parseEventStatus_eq_stable (a : Accessory) (ev : LockEventT)
    (h : a.lockEvent = some ev)
    (ht : ¬ (¬ a.hideLock = true ∧ (ev.state.unlocking = true ∨ ev.state.locking = true))) :
    parseEventStatus a = parseEventStatusContact (parseEventStatusLock a ev) ev := by
  unfold parseEventStatus
  rw [h]
  exact if_neg ht

theorem parseEventStatus_idem (a : Accessory) :
    parseEventStatus (parseEventStatus a) = parseEventStatus a := by
  rcases hev : a.lockEvent with _ | ev
  · rw [parseEventStatus_eq_none a hev, parseEventStatus_eq_none a hev]
  · by_cases ht : (¬ a.hideLock = true ∧ (ev.state.unlocking = true ∨ ev.state.locking = true))
    · rw [parseEventStatus_eq_transient a ev hev ht, parseEventStatus_eq_transient a ev hev ht]
    · rw [parseEventStatus_eq_stable a ev hev ht]
      have h2 : (parseEventStatusContact (parseEventStatusLock a ev) ev).lockEvent = some ev := by
        rw [(parseEventStatusContact_fields _ ev).2.2.2.2.2.2.2.2.1,
          (parseEventStatusLock_fields a ev).2.2.2.2.2.2.2.2.1, hev]
      have h3 : (parseEventStatusContact (parseEventStatusLock a ev) ev).hideLock
          = a.hideLock := by
        rw [(parseEventStatusContact_fields _ ev).1, (parseEventStatusLock_fields a ev).1]
      rw [parseEventStatus_eq_stable _ ev h2 (by rw [h3]; exact ht)]
      rw [parseEventStatusLock_absorb]
      by_cases hc : a.hideContact = true
      · have hcl : (parseEventStatusLock a ev).hideContact = true := by
          rw [(parseEventStatusLock_fields a ev).2.1]
          exact hc
        have g1 : parseEventStatusContact (parseEventStatusLock a ev) ev
            = parseEventStatusLock a ev := by
          unfold parseEventStatusContact
          rw [if_neg (by simp [hcl])]
        rw [g1, g1]
      · have hc0 : (parseEventStatusLock a ev).hideContact = false := by
          rw [(parseEventStatusLock_fields a ev).2.1]
          simpa using hc
        have g1 : parseEventStatusContact (parseEventStatusLock a ev) ev
            = { parseEventStatusLock a ev with
                ContactSensorState :=
                  contactFromEvent ev (parseEventStatusLock a ev).ContactSensorState } := by
          unfold parseEventStatusContact
          rw [if_pos (by simp [hc0])]
        rw [g1]
        exact parseEventStatusContact_self _ ev (by simp [contactFromEvent_idem])

theorem parseStatusContact_fields (a : Accessory) (ls : LockStatusT) :
    (parseStatusContact a ls).hideLock = a.hideLock ∧
    (parseStatusContact a ls).hideContact = a.hideContact ∧
    (parseStatusContact a ls).LockCurrentState = a.LockCurrentState ∧
    (parseStatusContact a ls).LockTargetState = a.LockTargetState ∧
    (parseStatusContact a ls).BatteryLevel = a.BatteryLevel ∧
    (parseStatusContact a ls).StatusLowBattery = a.StatusLowBattery ∧
    (parseStatusContact a ls).contextCurrentFirmwareVersion = a.contextCurrentFirmwareVersion ∧
    (parseStatusContact a ls).lockStatus = a.lockStatus ∧
    (parseStatusContact a ls).lockEvent = a.lockEvent ∧
    (parseStatusContact a ls).lockDetails = a.lockDetails := by
  unfold parseStatusContact
  split <;> simp

theorem parseStatusContact_self (y : Accessory) (ls : LockStatusT)
    (h : contactFromStatus ls y.ContactSensorState = y.ContactSensorState) :
    parseStatusContact y ls = y := by
  unfold parseStatusContact
  split
  · exact update_ContactSensorState_self y _ h.symm
  · rfl

theorem parseStatusDetails_fields (a : Accessory) :
    (parseStatusDetails a).hideLock = a.hideLock ∧
    (parseStatusDetails a).hideContact = a.hideContact ∧
    (parseStatusDetails a).LockCurrentState = a.LockCurrentState ∧
    (parseStatusDetails a).LockTargetState = a.LockTargetState ∧
    (parseStatusDetails a).ContactSensorState = a.ContactSensorState ∧
    (parseStatusDetails a).lockStatus = a.lockStatus ∧
    (parseStatusDetails a).lockEvent = a.lockEvent ∧
    (parseStatusDetails a).lockDetails = a.lockDetails := by
  unfold parseStatusDetails
  split
  · simp
  · split_ifs <;> simp

theorem parseStatusDetails_eq_none (y : Accessory) (h : y.lockDetails = none) :
    parseStatusDetails y = y := by
  unfold parseStatusDetails
  rw [h]

theorem parseStatusDetails_eq_pos (y : Accessory) (d : LockDetailsT)
    (h : y.lockDetails = some d)
    (hf : ¬ y.contextCurrentFirmwareVersion = some d.currentFirmwareVersion) :
    parseStatusDetails y =
      { y with BatteryLevel := jsToFixed0 (d.battery * 100),
               StatusLowBattery :=
                 if jsToFixed0 (d.battery * 100) < 15 then BATTERY_LEVEL_LOW
                 else BATTERY_LEVEL_NORMAL,
               contextCurrentFirmwareVersion := some d.currentFirmwareVersion } := by
  unfold parseStatusDetails
  rw [h]
  simp only []
  rw [if_pos (by simpa using hf)]

theorem parseStatusDetails_eq_neg (y : Accessory) (d : LockDetailsT)
    (h : y.lockDetails = some d)
    (hf : y.contextCurrentFirmwareVersion = some d.currentFirmwareVersion) :
    parseStatusDetails y =
      { y with BatteryLevel := jsToFixed0 (d.battery * 100),
               StatusLowBattery :=
                 if jsToFixed0 (d.battery * 100) < 15 then BATTERY_LEVEL_LOW
                 else BATTERY_LEVEL_NORMAL } := by
  unfold parseStatusDetails
  rw [h]
  simp only []
  rw [if_neg (by simpa using hf)]

theorem parseStatusDetails_idem (y : Accessory) :
    parseStatusDetails (parseStatusDetails y) = parseStatusDetails y := by
  rcases hd : y.lockDetails with _ | d
  · rw [parseStatusDetails_eq_none y hd, parseStatusDetails_eq_none y hd]
  · by_cases hf : y.contextCurrentFirmwareVersion = some d.currentFirmwareVersion
    · rw [parseStatusDetails_eq_neg y d hd hf]
      rw [parseStatusDetails_eq_neg _ d (by simpa using hd) (by simpa using hf)]
    · rw [parseStatusDetails_eq_pos y d hd hf]
      rw [parseStatusDetails_eq_neg _ d (by simpa using hd) (by simp)]

theorem parseStatusLock_hidden (x : Accessory) (ls : LockStatusT)
    (h : x.hideLock = true) : parseStatusLock x ls = Except.ok x := by
  unfold parseStatusLock
  rw [if_neg (by simp [h])]

theorem parseStatusLock_noEvent (x : Accessory) (ls : LockStatusT)
    (h : x.hideLock = false) (he : x.lockEvent = none) :
    parseStatusLock x ls = Except.error () := by
  unfold parseStatusLock
  rw [if_pos (by simp [h]), he]

theorem parseStatusLock_pos (x : Accessory) (ls : LockStatusT) (ev : LockEventT)
    (h : x.hideLock = false) (he : x.lockEvent = some ev)
    (hb : (ev.state.locked != ev.state.unlocked) = true) :
    parseStatusLock x ls = Except.ok { x with LockCurrentState := phaseFromFlags ls.state } := by
  unfold parseStatusLock
  rw [if_pos (by simp [h]), he]
  simp only [if_pos hb]

theorem parseStatusLock_skip (x : Accessory) (ls : LockStatusT) (ev : LockEventT)
    (h : x.hideLock = false) (he : x.lockEvent = some ev)
    (hb : ¬ (ev.state.locked != ev.state.unlocked) = true) :
    parseStatusLock x ls = Except.ok x := by
  unfold parseStatusLock
  rw [if_pos (by simp [h]), he]
  simp only [if_neg hb]

theorem parseStatus_eq_none (a : Accessory) (h : a.lockStatus = none) :
    parseStatus a = Except.ok (parseStatusDetails a) := by
  unfold parseStatus
  rw [h]

theorem parseStatus_eq_ok (a : Accessory) (ls : LockStatusT) (aL : Accessory)
    (h : a.lockStatus = some ls) (hok : parseStatusLock a ls = Except.ok aL) :
    parseStatus a = Except.ok (parseStatusDetails (parseStatusContact aL ls)) := by
  unfold parseStatus
  simp only [h, hok]

theorem parseStatus_eq_err (a : Accessory) (ls : LockStatusT) (e : Unit)
    (h : a.lockStatus = some ls) (herr : parseStatusLock a ls = Except.error e) :
    parseStatus a = Except.error e := by
  unfold parseStatus
  simp only [h, herr]

theorem applySnapshotPoll_eq_ok (a c : Accessory) (h : parseStatus a = Except.ok c) :
    applySnapshotPoll a = c := by
  unfold applySnapshotPoll
  rw [h]

theorem applySnapshotPoll_eq_err (a : Accessory) (e : Unit)
    (h : parseStatus a = Except.error e) : applySnapshotPoll a = a := by
  unfold applySnapshotPoll
  rw [h]

theorem parseStatusContact_eq_hidden (y : Accessory) (ls : LockStatusT)
    (h : y.hideContact = true) : parseStatusContact y ls = y := by
  unfold parseStatusContact
  rw [if_neg (by simp [h])]

theorem parseStatusContact_eq_update (y : Accessory) (ls : LockStatusT)
    (h : y.hideContact = false) :
    parseStatusContact y ls
      = { y with ContactSensorState := contactFromStatus ls y.ContactSensorState } := by
  unfold parseStatusContact
  rw [if_pos (by simp [h])]

theorem parseStatusLock_ok_fields (x : Accessory) (ls : LockStatusT) (y : Accessory)
    (h : parseStatusLock x ls = Except.ok y) :
    y.hideLock = x.hideLock ∧
    y.hideContact = x.hideContact ∧
    y.LockTargetState = x.LockTargetState ∧
    y.ContactSensorState = x.ContactSensorState ∧
    y.BatteryLevel = x.BatteryLevel ∧
    y.StatusLowBattery = x.StatusLowBattery ∧
    y.contextCurrentFirmwareVersion = x.contextCurrentFirmwareVersion ∧
    y.lockStatus = x.lockStatus ∧
    y.lockEvent = x.lockEvent ∧
    y.lockDetails = x.lockDetails := by
  by_cases hl : x.hideLock = true
  · rw [parseStatusLock_hidden x ls hl] at h
    injection h with h2
    subst h2
    simp
  · have hl0 : x.hideLock = false := by simpa using hl
    rcases he : x.lockEvent with _ | ev
    · rw [parseStatusLock_noEvent x ls hl0 he] at h
      simp at h
    · by_cases hb : (ev.state.locked != ev.state.unlocked) = true
      · rw [parseStatusLock_pos x ls ev hl0 he hb] at h
        injection h with h2
        subst h2
        simp [he]
      · rw [parseStatusLock_skip x ls ev hl0 he hb] at h
        injection h with h2
        subst h2
        simp [he]

theorem applySnapshotPoll_idem (a : Accessory) :
    applySnapshotPoll (applySnapshotPoll a) = applySnapshotPoll a := by
  rcases hst : a.lockStatus with _ | ls
  · rw [applySnapshotPoll_eq_ok a _ (parseStatus_eq_none a hst)]
    have h2 : (parseStatusDetails a).lockStatus = none := by
      rw [(parseStatusDetails_fields a).2.2.2.2.2.1]
      exact hst
    rw [applySnapshotPoll_eq_ok _ _ (parseStatus_eq_none _ h2)]
    exact parseStatusDetails_idem a
  · cases hpl : parseStatusLock a ls with
    | error e =>
      have hps : parseStatus a = Except.error e := parseStatus_eq_err a ls e hst hpl
      rw [applySnapshotPoll_eq_err a e hps]
      exact applySnapshotPoll_eq_err a e hps
    | ok aL =>
      obtain ⟨fl1, fl2, fl3, fl4, fl5, fl6, fl7, fl8, fl9, fl10⟩ :=
        parseStatusLock_ok_fields a ls aL hpl
      rw [applySnapshotPoll_eq_ok a _ (parseStatus_eq_ok a ls aL hst hpl)]
      obtain ⟨c1, c2, c3, c4, c5, c6, c7, c8, c9, c10⟩ :=
        parseStatusContact_fields aL ls
      obtain ⟨d1, d2, d3, d4, d5, d6, d7, d8⟩ :=
        parseStatusDetails_fields (parseStatusContact aL ls)
      have hcls : (parseStatusDetails (parseStatusContact aL ls)).lockStatus = some ls := by
        rw [d6, c8, fl8, hst]
      have hchl : (parseStatusDetails (parseStatusContact aL ls)).hideLock = a.hideLock := by
        rw [d1, c1, fl1]
      have hcev : (parseStatusDetails (parseStatusContact aL ls)).lockEvent = a.lockEvent := by
        rw [d7, c9, fl9]
      -- the lock section of the second pass accepts the state unchanged
      have hpsl : parseStatusLock (parseStatusDetails (parseStatusContact aL ls)) ls
          = Except.ok (parseStatusDetails (parseStatusContact aL ls)) := by
        by_cases hl : a.hideLock = true
        · exact parseStatusLock_hidden _ ls (by rw [hchl]; exact hl)
        · have hl0 : a.hideLock = false := by simpa using hl
          rcases he : a.lockEvent with _ | ev
          · rw [parseStatusLock_noEvent a ls hl0 he] at hpl
            simp at hpl
          · by_cases hb : (ev.state.locked != ev.state.unlocked) = true
            · have hLCS : (parseStatusDetails (parseStatusContact aL ls)).LockCurrentState
                  = phaseFromFlags ls.state := by
                rw [parseStatusLock_pos a ls ev hl0 he hb] at hpl
                injection hpl with h2
                rw [d3, c3, ← h2]
              rw [parseStatusLock_pos _ ls ev (by rw [hchl]; exact hl0)
                (by rw [hcev]; exact he) hb]
              rw [update_LockCurrentState_self _ _ hLCS]
            · exact parseStatusLock_skip _ ls ev (by rw [hchl]; exact hl0)
                (by rw [hcev]; exact he) hb
      -- the contact section of the second pass accepts the state unchanged
      have hpsc : parseStatusContact (parseStatusDetails (parseStatusContact aL ls)) ls
          = parseStatusDetails (parseStatusContact aL ls) := by
        by_cases hc : a.hideContact = true
        · exact parseStatusContact_eq_hidden _ ls (by rw [d2, c2, fl2]; exact hc)
        · have hc0 : aL.hideContact = false := by rw [fl2]; simpa using hc
          have hCSS : (parseStatusDetails (parseStatusContact aL ls)).ContactSensorState
              = contactFromStatus ls aL.ContactSensorState := by
            rw [d5, parseStatusContact_eq_update aL ls hc0]
          exact parseStatusContact_self _ ls (by rw [hCSS, contactFromStatus_idem])
      have hps2 : parseStatus (parseStatusDetails (parseStatusContact aL ls))
          = Except.ok (parseStatusDetails (parseStatusContact aL ls)) := by
        rw [parseStatus_eq_ok _ ls _ hcls hpsl, hpsc, parseStatusDetails_idem]
      rw [applySnapshotPoll_eq_ok _ _ hps2]

/-! ## Helper lemmas: debouncer, pushChanges, scheduler -/

theorem pushChanges_hidden (x : Accessory) (r : Except String Unit)
    (h : x.hideLock = true) :
    pushChanges x r = ⟨x, [], [(LogLevel.errorLevel, "lockTargetState: undefined")]⟩ := by
  unfold pushChanges
  rw [if_neg (by simp [h])]

theorem pushChanges_cmd_ok (x : Accessory)
    (hhl : x.hideLock = false) (hne : x.LockTargetState ≠ x.LockCurrentState) :
    pushChanges x (Except.ok ())
      = ⟨x, [if x.LockTargetState = LockTargetStateUNSECURED then Command.unlock else Command.lock],
          [(LogLevel.successLevel,
            "Sending request to August API: "
              ++ (if x.LockTargetState = 1 then "Locked" else "Unlocked"))]⟩ := by
  unfold pushChanges
  rw [if_pos (by simp [hhl]), if_pos hne]

theorem pushChanges_cmd_error (x : Accessory) (msg : String)
    (hhl : x.hideLock = false) (hne : x.LockTargetState ≠ x.LockCurrentState) :
    pushChanges x (Except.error msg)
      = ⟨x, [if x.LockTargetState = LockTargetStateUNSECURED then Command.unlock else Command.lock],
          statusCode "pushChanges" msg ++ [(LogLevel.debugLevel, "pushChanges: " ++ msg)]⟩ := by
  unfold pushChanges
  rw [if_pos (by simp [hhl]), if_pos hne]

theorem pushChanges_noop (x : Accessory) (r : Except String Unit)
    (hhl : x.hideLock = false) (heq : x.LockTargetState = x.LockCurrentState) :
    pushChanges x r
      = ⟨{ x with LockTargetState :=
            if x.LockCurrentState = LockCurrentStateSECURED then LockTargetStateSECURED
            else LockTargetStateUNSECURED },
          [], [(LogLevel.debugLevel, "No changes, LockTargetState equals LockCurrentState")]⟩ := by
  unfold pushChanges
  rw [if_pos (by simp [hhl]), if_neg (by simp [heq])]

/-- Each `setLockTargetState` of a burst overwrites `LockTargetState`,
so the fold ends at the last enqueued value (last-write-wins), touching
nothing else. -/
theorem foldl_setLockTargetState (targets : List Int) (a : Accessory) (last : Int)
    (hhl : a.hideLock = false) (hlast : targets.getLast? = some last) :
    targets.foldl setLockTargetState a = { a with LockTargetState := last } := by
  induction targets generalizing a with
  | nil => simp at hlast
  | cons t ts ih =>
    have hset : setLockTargetState a t = { a with LockTargetState := t } := by
      unfold setLockTargetState
      rw [if_pos (by simp [hhl])]
    rw [List.foldl_cons, hset]
    cases ts with
    | nil =>
      have : t = last := by simpa using hlast
      subst this
      rfl
    | cons u us =>
      rw [ih _ (by simp [hhl]) (by rw [← List.getLast?_cons_cons (a := t)]; exact hlast)]

theorem statusCode_429 (action msg : String) (h429 : msg.take 3 = "429") :
    statusCode action msg
      = [(LogLevel.debugLevel,
          "Too Many Requests, exceeded the number of requests allowed for a given time window, statusCode: "
            ++ msg)] := by
  unfold statusCode logMapLookup
  rw [h429]
  rw [if_neg (by decide), if_neg (by decide), if_neg (by decide), if_pos rfl]

/-! ## Claim C1 — battery percentage -/

/-- C1: The spec claims `batteryPercent = round(b * 100)` clamped to
[0, 100].  The code computes `Number((battery * 100).toFixed())` with no
clamp, although the repository's own CHANGELOG for the released version
3.0.1 states "Fix so battery must be between 0 and 100": for an upstream
battery of 3/2 the poll merge stores BatteryLevel 150, outside 0..100.
The unclamped rounding itself is as specified: b = 0.07 yields exactly 7. -/
theorem C1_battery_unclamped :
    (refreshStatus accessoryWithEvent 30
        (Except.ok (detailsWithBattery (3/2)))).accessory.BatteryLevel = 150 ∧
    ¬ ((refreshStatus accessoryWithEvent 30
        (Except.ok (detailsWithBattery (3/2)))).accessory.BatteryLevel ≤ 100) ∧
    (refreshStatus accessoryWithEvent 30
        (Except.ok (detailsWithBattery (7/100)))).accessory.BatteryLevel = 7 := by
  refine ⟨?_, ?_, ?_⟩
  · simp only [refreshStatus, parseStatus, parseStatusLock, parseStatusContact,
      parseStatusDetails, accessoryWithEvent, baseAccessory, detailsWithBattery,
      lockedState, lockedClosedState]
    norm_num [jsToFixed0, round_eq]
  · simp only [refreshStatus, parseStatus, parseStatusLock, parseStatusContact,
      parseStatusDetails, accessoryWithEvent, baseAccessory, detailsWithBattery,
      lockedState, lockedClosedState]
    norm_num [jsToFixed0, round_eq]
  · simp only [refreshStatus, parseStatus, parseStatusLock, parseStatusContact,
      parseStatusDetails, accessoryWithEvent, baseAccessory, detailsWithBattery,
      lockedState, lockedClosedState]
    norm_num [jsToFixed0, round_eq]

/-! ## Claim C2 — equal locked/unlocked flags -/

/-- C2 counterexample: a stable push event (`locking`/`unlocking` false)
whose `locked` and `unlocked` flags are both false arrives while the
canonical phase is Secured; the merged phase remains Secured — a
carry-over of the previous stable phase, not Unknown as the claim
states. -/
theorem C2_counterexample_carry_over :
    bothFalseEventAccessory.lockEvent
        = some { doorState := "", state := stableAllFalse } ∧
    stableAllFalse.locking = false ∧ stableAllFalse.unlocking = false ∧
    stableAllFalse.locked = stableAllFalse.unlocked ∧
    (parseEventStatus bothFalseEventAccessory).LockCurrentState
        = LockCurrentStateSECURED ∧
    LockCurrentStateSECURED ≠ LockCurrentStateUNKNOWN := by
  decide

/-- C2 (amended): for every snapshot in which the push event's raw
`locked` flag equals its raw `unlocked` flag, the merge — push path and
poll path alike — leaves `LockCurrentState` exactly unchanged: a
carry-over of the previous phase, never Jammed and never Unknown.  (In
`parseStatus` the both-flags guard is evaluated on the last push event's
flags, so when those agree the poll snapshot's phase assignment is
skipped as well.) -/
theorem C2_equal_flags_carry_over (a : Accessory) (ev : LockEventT)
    (hev : a.lockEvent = some ev)
    (heq : ev.state.locked = ev.state.unlocked) :
    (parseEventStatus a).LockCurrentState = a.LockCurrentState ∧
    (applySnapshotPoll a).LockCurrentState = a.LockCurrentState := by
  constructor
  · by_cases ht : (¬ a.hideLock = true ∧ (ev.state.unlocking = true ∨ ev.state.locking = true))
    · rw [parseEventStatus_eq_transient a ev hev ht]
    · rw [parseEventStatus_eq_stable a ev hev ht]
      rw [parseEventStatusLock_neg a ev (by simp [heq])]
      exact (parseEventStatusContact_fields a ev).2.2.1
  · rcases hst : a.lockStatus with _ | ls
    · rw [applySnapshotPoll_eq_ok a _ (parseStatus_eq_none a hst)]
      exact (parseStatusDetails_fields a).2.2.1
    · by_cases hl : a.hideLock = true
      · rw [applySnapshotPoll_eq_ok a _
          (parseStatus_eq_ok a ls a hst (parseStatusLock_hidden a ls hl))]
        rw [(parseStatusDetails_fields _).2.2.1, (parseStatusContact_fields a ls).2.2.1]
      · have hl0 : a.hideLock = false := by simpa using hl
        have hskip : parseStatusLock a ls = Except.ok a :=
          parseStatusLock_skip a ls ev hl0 hev (by simp [heq])
        rw [applySnapshotPoll_eq_ok a _ (parseStatus_eq_ok a ls a hst hskip)]
        rw [(parseStatusDetails_fields _).2.2.1, (parseStatusContact_fields a ls).2.2.1]

/-- C2 witness: the amended theorem evaluated at the concrete both-false
stable event fixture. -/
theorem C2_equal_flags_carry_over_witness :
    (parseEventStatus bothFalseEventAccessory).LockCurrentState
        = bothFalseEventAccessory.LockCurrentState ∧
    (applySnapshotPoll bothFalseEventAccessory).LockCurrentState
        = bothFalseEventAccessory.LockCurrentState :=
  C2_equal_flags_carry_over bothFalseEventAccessory
    { doorState := "", state := stableAllFalse } rfl rfl

/-! ## Claim C3 — transient locking/unlocking suppression -/

/-- C3 counterexample: a poll snapshot carrying the transient `locking`
flag (locked and unlocked both false), arriving after a stale locked push
event, changes the phase from Secured to Unknown — `parseStatus` does not
suppress the merge on transient flags, it only logs a warning, so the
claim fails for poll-sourced snapshots. -/
theorem C3_counterexample_poll_transient :
    (lockingPollAccessory.lockStatus.map (fun ls => ls.state.locking)) = some true ∧
    lockingPollAccessory.LockCurrentState = LockCurrentStateSECURED ∧
    (applySnapshotPoll lockingPollAccessory).LockCurrentState = LockCurrentStateUNKNOWN ∧
    LockCurrentStateUNKNOWN ≠ LockCurrentStateSECURED := by
  decide

/-- C3 (amended): transient suppression holds for push events only: for
every push event whose `locking` or `unlocking` flag is set,
`parseEventStatus` leaves `LockCurrentState` exactly unchanged regardless
of the other flags, and when the lock service is visible it leaves the
whole accessory state unchanged (early return).  Poll snapshots
(`parseStatus`) only log a warning on transient flags and do not suppress
the phase merge. -/
theorem C3_transient_suppression_push (a : Accessory) (ev : LockEventT)
    (hev : a.lockEvent = some ev)
    (ht : ev.state.locking = true ∨ ev.state.unlocking = true) :
    (parseEventStatus a).LockCurrentState = a.LockCurrentState ∧
    (a.hideLock = false → parseEventStatus a = a) := by
  by_cases hl : a.hideLock = true
  · have htr : ¬ (¬ a.hideLock = true ∧ (ev.state.unlocking = true ∨ ev.state.locking = true)) := by
      simp [hl]
    constructor
    · rw [parseEventStatus_eq_stable a ev hev htr]
      rw [parseEventStatusLock_neg a ev (by simp [hl])]
      exact (parseEventStatusContact_fields a ev).2.2.1
    · intro h0
      rw [hl] at h0
      cases h0
  · have hl0 : a.hideLock = false := by simpa using hl
    have htr : (¬ a.hideLock = true ∧ (ev.state.unlocking = true ∨ ev.state.locking = true)) := by
      refine ⟨by simp [hl0], ?_⟩
      rcases ht with h | h
      · exact Or.inr h
      · exact Or.inl h
    have heq := parseEventStatus_eq_transient a ev hev htr
    exact ⟨by rw [heq], fun _ => heq⟩

/-- C3 witness: the amended theorem evaluated at a concrete transient
locking push event. -/
theorem C3_transient_suppression_push_witness :
    (parseEventStatus lockingEventAccessory).LockCurrentState
        = lockingEventAccessory.LockCurrentState ∧
    (lockingEventAccessory.hideLock = false →
      parseEventStatus lockingEventAccessory = lockingEventAccessory) :=
  C3_transient_suppression_push lockingEventAccessory
    { doorState := "", state := lockingState } rfl (Or.inl rfl)

/-! ## Claim C4 — poll-scheduler guard -/

/-- C4 counterexample: with guard history [false, true] — the guard read
false at the first tick and true at the second — the second tick still
performs a fetch, because rxjs `skipWhile` stops consulting the predicate
after its first false: the claim that every tick with
`lockUpdateInProgress = true` performs zero fetches fails beyond the
leading ticks. -/
theorem C4_counterexample_skipWhile :
    [false, true].get? 1 = some true ∧
    pollTickFetches baseAccessory 30 (Except.error "ECONNRESET") [false, true] 1 = 1 ∧
    (1 : Nat) ≠ 0 := by
  decide

/-- C4 (amended): the `skipWhile` guard suppresses only the leading
ticks: a poll tick performs zero outbound fetches when
`lockUpdateInProgress` was true at that tick and at every earlier tick;
once any tick has observed the guard false, every later tick runs
`refreshStatus` (one fetch when the refresh rate is non-zero) regardless
of the guard's current value. -/
theorem C4_guard_skips_leading_ticks (a : Accessory) (rate : Int)
    (fetch : Except String LockDetailsT) (guards : List Bool) (i : Nat) :
    ((∀ g ∈ guards.take (i + 1), g = true) →
      pollTickFetches a rate fetch guards i = 0) ∧
    (tickEmitted guards i = true →
      pollTickFetches a rate fetch guards i = (refreshStatus a rate fetch).fetchCount) := by
  constructor
  · intro h
    have hte : tickEmitted guards i = false := by
      unfold tickEmitted
      rw [List.any_eq_false]
      intro g hg
      simp [h g hg]
    simp [pollTickFetches, hte]
  · intro h
    simp [pollTickFetches, h]

/-- C4 witness: with the guard true at both of the first two ticks, the
second tick performs no fetch. -/
theorem C4_guard_skips_leading_ticks_witness :
    pollTickFetches baseAccessory 30 (Except.error "ECONNRESET") [true, true] 1 = 0 :=
  (C4_guard_skips_leading_ticks baseAccessory 30 (Except.error "ECONNRESET")
    [true, true] 1).1 (by decide)

/-! ## Claim C5 — debounce coalescing -/

/-- C5 counterexample: the burst [Unlocked, Locked] enqueued within one
debounce window, with the lock currently Secured, produces zero outbound
commands — not exactly one — because `pushChanges` skips the vendor call
when the last target equals `LockCurrentState`. -/
theorem C5_counterexample_no_command :
    baseAccessory.LockCurrentState = LockCurrentStateSECURED ∧
    (debounceWindow baseAccessory
        [LockTargetStateUNSECURED, LockTargetStateSECURED] (Except.ok ())).commands.length = 0 ∧
    (0 : Nat) ≠ 1 := by
  decide

/-- C5 (amended): one debounce window issues at most one outbound
command; earlier targets in the burst are discarded (last-write-wins),
and exactly one command fires iff the last enqueued target differs from
`LockCurrentState`, in which case the command is `unlock` for target
Unsecured and `lock` otherwise. -/
theorem C5_debounce_last_write_wins (a : Accessory) (targets : List Int) (last : Int)
    (cmdResult : Except String Unit)
    (hhl : a.hideLock = false)
    (hlast : targets.getLast? = some last) :
    ((debounceWindow a targets cmdResult).commands.length ≤ 1) ∧
    ((debounceWindow a targets cmdResult).commands ≠ [] ↔ last ≠ a.LockCurrentState) ∧
    (last ≠ a.LockCurrentState →
      (debounceWindow a targets cmdResult).commands
        = [if last = LockTargetStateUNSECURED then Command.unlock else Command.lock]) := by
  have hne : ¬ targets.isEmpty := by
    cases targets
    · simp at hlast
    · simp
  have hfold := foldl_setLockTargetState targets a last hhl hlast
  have hdw : debounceWindow a targets cmdResult
      = pushChanges { a with LockTargetState := last } cmdResult := by
    unfold debounceWindow
    rw [if_neg (by simp [hne, hhl]), hfold]
  by_cases hcur : last = a.LockCurrentState
  · have hnoop := pushChanges_noop { a with LockTargetState := last } cmdResult
      (by simp [hhl]) (by simp [hcur])
    rw [hdw, hnoop]
    simp [hcur]
  · have hcmd : ({ a with LockTargetState := last } : Accessory).LockTargetState
        ≠ ({ a with LockTargetState := last } : Accessory).LockCurrentState := by
      simp [hcur]
    rcases cmdResult with msg | u
    · rw [hdw, pushChanges_cmd_error _ msg (by simp [hhl]) hcmd]
      simp [hcur]
    · rw [hdw]
      rw [pushChanges_cmd_ok _ (by simp [hhl]) hcmd]
      simp [hcur]

/-- C5 witness: the spec's own scenario — burst [Unlocked, Locked,
Unlocked] against a Secured lock — fires exactly one command, `unlock`. -/
theorem C5_debounce_last_write_wins_witness :
    (debounceWindow baseAccessory [0, 1, 0] (Except.ok ())).commands = [Command.unlock] := by
  have h := (C5_debounce_last_write_wins baseAccessory [0, 1, 0] 0 (Except.ok ())
    rfl (by decide)).2.2 (by decide)
  simpa using h

/-! ## Claim C6 — refresh-rate resolution -/

/-- C6 counterexample: a configured per-device refreshRate of 5 seconds —
non-zero and far below the 1800-second floor the repository's own warning
text names — is used as-is: no minimum floor is enforced by the current
`getDeviceRateSettings`. -/
theorem C6_counterexample_no_floor :
    getDeviceRefreshRate (some 5) none = 5 ∧
    (5 : Int) ≠ 0 ∧ (5 : Int) < 1800 ∧
    getDeviceRefreshRate (some 5) none ≠ 1800 := by
  decide

/-- C6 (amended): the effective per-device poll interval is 0 (polling
disabled — `refreshStatus` performs zero fetches) when the device
refreshRate is configured as 0; any other configured value is used
unmodified, with no minimum floor; when unset it falls back to the
platform refreshRate, and to 30 when that is unset too. -/
theorem C6_refresh_rate_resolution (p : Option Int) (r : Int) (pr : Int)
    (a : Accessory) (fetch : Except String LockDetailsT) :
    (getDeviceRefreshRate (some 0) p = 0) ∧
    (r ≠ 0 → getDeviceRefreshRate (some r) p = r) ∧
    (getDeviceRefreshRate none (some pr) = pr) ∧
    (getDeviceRefreshRate none none = 30) ∧
    ((refreshStatus a 0 fetch).fetchCount = 0) := by
  refine ⟨rfl, ?_, rfl, rfl, ?_⟩
  · intro h
    simp [getDeviceRefreshRate, h]
  · simp [refreshStatus]

/-- C6 witness: a configured rate of 7 resolves to 7, and rate 0 performs
no fetch. -/
theorem C6_refresh_rate_resolution_witness :
    getDeviceRefreshRate (some 7) none = 7 ∧
    (refreshStatus baseAccessory 0 (Except.error "ECONNRESET")).fetchCount = 0 :=
  ⟨(C6_refresh_rate_resolution none 7 0 baseAccessory (Except.error "ECONNRESET")).2.1
      (by decide),
    (C6_refresh_rate_resolution none 7 0 baseAccessory (Except.error "ECONNRESET")).2.2.2.2⟩

/-! ## Claim C7 — characteristic writes -/

/-- C7 counterexample: `updateCharacteristic` pushes the value to the
host even when it equals the last pushed value recorded in the accessory
context: for context 82 and value 82 it performs one write, not zero —
there is no differs-from-last-pushed comparison. -/
theorem C7_counterexample_redundant_write :
    (updateCharacteristic (some 82) (some 82)).1 = 1 ∧ ¬ ((82 : Int) ≠ 82) := by
  decide

/-- C7 (amended): a defined characteristic value is always written to the
host (and mirrored into the context), regardless of the last pushed
value; only an undefined value is skipped.  Consequently every
`updateHomeKitCharacteristics` pass — including repeated identical polls —
performs the same fixed positive number of host writes, determined only
by the two hide flags. -/
theorem C7_unconditional_writes (ctx : Option Int) (v : Int) (a : Accessory) :
    updateCharacteristic ctx (some v) = (1, some v) ∧
    updateCharacteristic ctx none = (0, ctx) ∧
    updateHomeKitCharacteristics a
      = (if a.hideLock then 0 else 2) + 2 + (if a.hideContact then 0 else 1) := by
  refine ⟨rfl, rfl, ?_⟩
  unfold updateHomeKitCharacteristics updateCharacteristic
  cases a.hideLock <;> cases a.hideContact <;> simp

/-! ## Claim C8 — rate-limited (429) failures -/

/-- C8 counterexample: a 429-class command failure during `pushChanges`
produces no error-level log entry at all — the guidance is emitted
through `debugLog` by the current `statusCode`, so the claim that the
failure is logged at error level with explicit guidance fails. -/
theorem C8_counterexample_no_error_log :
    ((pushChanges pendingIntentAccessory (Except.error "429")).logs.all
      (fun e => decide (e.1 ≠ LogLevel.errorLevel)) = true) ∧
    (pushChanges pendingIntentAccessory (Except.error "429")).logs ≠ [] := by
  decide

/-- C8 (amended): for every 429-class command failure (message starting
"429") while an intent is pending, `pushChanges` leaves the accessory
state — canonical phase and pending target alike — exactly unchanged, the
explicit too-many-requests guidance is logged at debug level, no entry is
logged at error level, and the function returns normally (no exception
escapes the handler). -/
theorem C8_rate_limited_handling (a : Accessory) (msg : String)
    (h429 : msg.take 3 = "429")
    (hhl : a.hideLock = false)
    (hne : a.LockTargetState ≠ a.LockCurrentState) :
    (pushChanges a (Except.error msg)).accessory = a ∧
    (LogLevel.debugLevel,
      "Too Many Requests, exceeded the number of requests allowed for a given time window, statusCode: "
        ++ msg) ∈ (pushChanges a (Except.error msg)).logs ∧
    (∀ e ∈ (pushChanges a (Except.error msg)).logs, e.1 ≠ LogLevel.errorLevel) := by
  rw [pushChanges_cmd_error a msg hhl hne, statusCode_429 "pushChanges" msg h429]
  refine ⟨rfl, by simp, ?_⟩
  intro e he
  simp at he
  rcases he with he | he <;> simp [he]

/-- C8 witness: the amended theorem evaluated at a concrete pending
intent and a concrete 429 message. -/
theorem C8_rate_limited_handling_witness :
    (pushChanges pendingIntentAccessory (Except.error "429 Too Many Requests")).accessory
      = pendingIntentAccessory :=
  (C8_rate_limited_handling pendingIntentAccessory "429 Too Many Requests"
    (by decide) rfl (by decide)).1

/-! ## Claim C9 — failures never escape, state unchanged -/

/-- C9: `refreshStatus` and `pushChanges` convert every network failure
into log entries at the call site — both are total functions here, the
`try`/`catch` being part of the embedding — and a failed operation leaves
the accessory state (lockPhase, doorContact, batteryPercent and the
pending LockTargetState intent) exactly unchanged: state changes only on
successful, well-formed data. -/
theorem C9_failures_leave_state_unchanged :
    (∀ (a : Accessory) (rate : Int) (msg : String),
      (refreshStatus a rate (Except.error msg)).accessory = a) ∧
    (∀ (a : Accessory) (msg : String),
      a.LockTargetState ≠ a.LockCurrentState →
        (pushChanges a (Except.error msg)).accessory = a) := by
  constructor
  · intro a rate msg
    unfold refreshStatus
    split
    · rfl
    · rfl
  · intro a msg h
    by_cases hhl : a.hideLock = true
    · rw [pushChanges_hidden a _ hhl]
    · rw [pushChanges_cmd_error a msg (by simpa using hhl) h]

/-- C9 witness: a failed poll fetch and a failed 400-class command, each
at a concrete accessory, leave the state unchanged. -/
theorem C9_failures_leave_state_unchanged_witness :
    (refreshStatus baseAccessory 30 (Except.error "ECONNRESET")).accessory = baseAccessory ∧
    (pushChanges pendingIntentAccessory (Except.error "400 Bad Request")).accessory
      = pendingIntentAccessory :=
  ⟨C9_failures_leave_state_unchanged.1 baseAccessory 30 "ECONNRESET",
    C9_failures_leave_state_unchanged.2 pendingIntentAccessory "400 Bad Request" (by decide)⟩

/-! ## Claim C10 — idempotent merge -/

/-- C10: the snapshot merge is idempotent: applying the stored snapshot a
second time — through the poll path (`parseStatus` as observed by its
catching caller) or through the push path (`parseEventStatus`) — yields
exactly the same accessory state as applying it once; in particular
lockPhase, doorContact, batteryPercent and lowBattery are unchanged by
the second application. -/
theorem C10_applySnapshot_idempotent (a : Accessory) :
    applySnapshotPoll (applySnapshotPoll a) = applySnapshotPoll a ∧
    parseEventStatus (parseEventStatus a) = parseEventStatus a :=
  ⟨applySnapshotPoll_idem a, parseEventStatus_idem a⟩

end HomebridgeAugust
